import Mathlib

/-!
Verification of the voip_webrtc_freepbx Odoo module (models/voip_call.py,
models/voip_recording.py, models/voip_user.py, models/voip_server.py,
controllers/voip_controller.py) against its natural-language specification.

The embedding is shallow: Odoo records become Lean structures, datetimes become
integers (seconds), nullable fields become Option, and each controller endpoint
or model action becomes a pure function returning Except (the caught-exception
error response) or an updated record.
-/

namespace Voip

/-- Call direction, from the voip.call `direction` Selection field. -/
inductive Direction
  | inbound
  | outbound
deriving DecidableEq

/-- Call lifecycle states, from the voip.call `state` Selection field
(voip_call.py lines 51-59). -/
inductive CallState
  | ringing
  | in_progress
  | completed
  | missed
  | failed
  | busy
  | rejected
deriving DecidableEq

/-- A voip.call record (voip_call.py lines 8-137).  Datetimes are integer
seconds; unset Datetime/Char fields are `none`.  The sequence-assigned `name`
reference, the related user/server fields, the partner link and the notes field
play no role in the claims and are omitted. -/
structure VoipCall where
  direction : Direction
  state : CallState
  from_number : String
  to_number : String
  start_time : Int
  answer_time : Option Int
  end_time : Option Int
  hangup_reason : Option String
  sip_call_id : Option String
deriving DecidableEq

/-- VoipCall._compute_duration (voip_call.py lines 145-152): when both
answer_time and end_time are set, duration = (end_time - answer_time) in
seconds, otherwise 0.0. -/
def compute_duration (c : VoipCall) : Int :=
  match c.answer_time, c.end_time with
  | some a, some e => e - a
  | _, _ => 0

/-- VoipCall.action_start_call (voip_call.py lines 208-214): only when the
state is ringing, write state=in_progress and answer_time=now; otherwise the
record is left untouched. -/
def action_start_call (now : Int) (c : VoipCall) : VoipCall :=
  if c.state = CallState.ringing then
    { c with state := CallState.in_progress, answer_time := some now }
  else
    c

/-- VoipCall.action_end_call (voip_call.py lines 216-228): a single write of
end_time=now and hangup_reason=reason, with state additionally set to missed
when currently ringing and to completed when currently in_progress (the vals
dict is written unconditionally, whatever the current state). -/
def action_end_call (now : Int) (reason : String) (c : VoipCall) : VoipCall :=
  if c.state = CallState.ringing then
    { c with state := CallState.missed, end_time := some now,
             hangup_reason := some reason }
  else if c.state = CallState.in_progress then
    { c with state := CallState.completed, end_time := some now,
             hangup_reason := some reason }
  else
    { c with end_time := some now, hangup_reason := some reason }

/-- VoipCall.action_mark_as_missed (voip_call.py lines 230-235). -/
def action_mark_as_missed (now : Int) (c : VoipCall) : VoipCall :=
  { c with state := CallState.missed, end_time := some now }

/-- The values of the voip.call `direction` Selection; the ORM rejects a create
with a value outside this list. -/
def valid_directions : List String := ["inbound", "outbound"]

/-- Parse a direction string as the ORM Selection validation would. -/
def parseDirection (s : String) : Option Direction :=
  if s = "inbound" then some Direction.inbound
  else if s = "outbound" then some Direction.outbound
  else none

/-- VoipController.create_call (voip_controller.py lines 88-122) combined with
the voip.call field defaults (voip_call.py): direction defaults to outbound
when absent, state is set to ringing, start_time defaults to now, answer_time
and end_time are left unset.  A missing required number or an invalid direction
makes the ORM create raise, which the endpoint catches and returns as an error
response. -/
def create_call (now : Int) (direction : Option String)
    (from_number : Option String) (to_number : Option String)
    (sip_call_id : Option String) : Except String VoipCall :=
  match from_number, to_number with
  | some f, some t =>
      match parseDirection (direction.getD "outbound") with
      | some d =>
          Except.ok
            { direction := d, state := CallState.ringing,
              from_number := f, to_number := t, start_time := now,
              answer_time := none, end_time := none,
              hangup_reason := none, sip_call_id := sip_call_id }
      | none => Except.error "Invalid direction"
  | _, _ => Except.error "Missing required field"

/-- The new-state values for which VoipController.update_call writes end_time
and hangup_reason (voip_controller.py line 138), in source order. -/
def terminal_write_states : List CallState :=
  [CallState.completed, CallState.missed, CallState.failed,
   CallState.rejected, CallState.busy]

/-- VoipController.update_call (voip_controller.py lines 124-151): a missing
call yields the error response; otherwise update_vals always contains the
requested state, adds answer_time = (supplied or now) exactly when the
requested state is in_progress and answer_time is still unset, and adds
end_time = (supplied or now) plus hangup_reason (defaulting to normal) exactly
when the requested state is one of the five terminal values.  No check is made
against the current state or the existing timestamps; the assembled
update_vals dict is written in one call. -/
def update_call (now : Int) (call : Option VoipCall) (new_state : CallState)
    (ans : Option Int) (et : Option Int) (hr : Option String) :
    Except String VoipCall :=
  match call with
  | none => Except.error "Call not found"
  | some c =>
      Except.ok
        { c with
          state := new_state,
          answer_time :=
            if new_state = CallState.in_progress ∧ c.answer_time = none then
              some (ans.getD now)
            else c.answer_time,
          end_time :=
            if new_state ∈ terminal_write_states then some (et.getD now)
            else c.end_time,
          hangup_reason :=
            if new_state ∈ terminal_write_states then some (hr.getD "normal")
            else c.hangup_reason }

/-- A res.partner directory entry as read by the phone-search endpoints. -/
structure Partner where
  pid : Nat
  pname : String
  phone : Option String
  mobile : Option String
  email : Option String
deriving DecidableEq

/-- The characters stripped by the chained replace calls in
VoipController.search_partner (voip_controller.py line 276) and
VoipCall._onchange_find_partner (voip_call.py line 184): space, hyphen,
opening and closing parenthesis.  Char.ofNat 32 is the space character. -/
def stripped_chars : List Char := [Char.ofNat 32, '-', '(', ')']

/-- phone.replace(' ', '').replace('-', '').replace('(', '').replace(')', ''). -/
def clean_phone (s : String) : String :=
  String.mk (s.data.filter (fun ch => ch ∉ stripped_chars))

/-- Lower-cased character list of a string, for case-insensitive comparison. -/
def lowerData (s : String) : List Char := s.data.map Char.toLower

/-- Whether needle occurs as a contiguous sublist of hay. -/
def containsSub (needle : List Char) : List Char → Bool
  | [] => needle.isEmpty
  | c :: rest => needle.isPrefixOf (c :: rest) || containsSub needle rest

/-- The ORM ilike operator on a nullable Char field: a case-insensitive
substring match of the pattern against the stored value; a null field never
matches. -/
def ilike (pat : String) (field : Option String) : Bool :=
  match field with
  | none => false
  | some v => containsSub (lowerData pat) (lowerData v)

/-- The disjunctive search domain of VoipController.search_partner
(voip_controller.py lines 279-284): phone ilike cleaned, or mobile ilike
cleaned, or phone ilike raw. -/
def partner_matches (cleaned : String) (raw : String) (p : Partner) : Bool :=
  ilike cleaned p.phone || ilike cleaned p.mobile || ilike raw p.phone

/-- VoipController.search_partner (voip_controller.py lines 268-304): an empty
phone argument is the error response; otherwise one search with the
disjunctive domain, limit=1, over the directory in its native order — the
first matching partner, or none (returned as a success with a null partner). -/
def search_partner (directory : List Partner) (phone : String) :
    Except String (Option Partner) :=
  if phone = "" then Except.error "Phone number required"
  else Except.ok (directory.find? (partner_matches (clean_phone phone) phone))

/-- The lookup as the spec words it (spec.md section 4.1, Directory
resolution), for comparison with search_partner: normalize the query, then try
in priority order an exact normalized match against the stored phone, an exact
normalized match against the stored mobile, and a raw exact match against the
stored phone; the first stage with a match wins. -/
def search_partner_spec (directory : List Partner) (phone : String) :
    Option Partner :=
  match directory.find? (fun p => p.phone == some (clean_phone phone)) with
  | some p => some p
  | none =>
      match directory.find? (fun p => p.mobile == some (clean_phone phone)) with
      | some p => some p
      | none => directory.find? (fun p => p.phone == some phone)

/-- Recording lifecycle states, from the voip.recording `state` Selection
(voip_recording.py lines 72-76). -/
inductive RecState
  | recording
  | completed
  | failed
deriving DecidableEq

/-- A voip.recording record (voip_recording.py lines 9-101).  recording_file
holds the stored content, which the controllers always write as the
base64-encoded bytes of the uploaded file; recording_type and format are the
validated Selection strings. -/
structure VoipRecording where
  rname : String
  call_ref : Nat
  recording_file : Option (List Char)
  recording_filename : Option String
  file_size : Nat
  duration : Int
  recording_type : String
  state : RecState
  format : String
deriving DecidableEq

/-- The values of the voip.recording `format` Selection (voip_recording.py
lines 97-101); the ORM rejects any other value. -/
def recording_formats : List String := ["wav", "mp3", "ogg"]

/-- The values of the voip.user `recording_format` Selection (voip_user.py
lines 149-153). -/
def user_recording_formats : List String := ["webm", "mp4", "wav"]

/-- The values of the voip.recording `recording_type` Selection
(voip_recording.py lines 67-70). -/
def recording_types : List String := ["automatic", "manual"]

/-- Parse a recording state string as the ORM Selection validation would. -/
def parseRecState (s : String) : Option RecState :=
  if s = "recording" then some RecState.recording
  else if s = "completed" then some RecState.completed
  else if s = "failed" then some RecState.failed
  else none

/-- The standard base64 alphabet. -/
def b64chars : List Char :=
  "ABCDEFGHIJKLMNOPQRSTUVWXYZabcdefghijklmnopqrstuvwxyz0123456789+/".data

/-- The base64 alphabet character at index n. -/
def b64char (n : Nat) : Char := b64chars.getD n (Char.ofNat 65)

/-- base64.b64encode on a byte list: each 3-byte group becomes 4 alphabet
characters, with a final 1- or 2-byte group padded by one or two equals
signs. -/
def b64encode : List Nat → List Char
  | [] => []
  | [b1] =>
      [b64char (b1 % 256 / 4), b64char (b1 % 256 % 4 * 16),
       Char.ofNat 61, Char.ofNat 61]
  | [b1, b2] =>
      [b64char (b1 % 256 / 4), b64char (b1 % 256 % 4 * 16 + b2 % 256 / 16),
       b64char (b2 % 256 % 16 * 4), Char.ofNat 61]
  | b1 :: b2 :: b3 :: rest =>
      b64char (b1 % 256 / 4) ::
      b64char (b1 % 256 % 4 * 16 + b2 % 256 / 16) ::
      b64char (b2 % 256 % 16 * 4 + b3 % 256 / 64) ::
      b64char (b3 % 256 % 64) :: b64encode rest

/-- VoipController.create_recording (voip_controller.py lines 198-223): a
missing call is the error response; otherwise a voip.recording is created with
name defaulting to "Recording - " + the call name, recording_type defaulting
to automatic, state defaulting to recording, and format defaulting to wav; a
value outside the respective Selection makes the ORM create raise, which the
endpoint catches and returns as an error response. -/
def create_recording (call_exists : Bool) (call_id : Nat) (call_name : String)
    (name : Option String) (rec_type : Option String)
    (rec_state : Option String) (format : Option String) :
    Except String VoipRecording :=
  if call_exists then
    if (format.getD "wav") ∈ recording_formats then
      if (rec_type.getD "automatic") ∈ recording_types then
        match parseRecState (rec_state.getD "recording") with
        | some st =>
            Except.ok
              { rname := name.getD ("Recording - " ++ call_name),
                call_ref := call_id,
                recording_file := none, recording_filename := none,
                file_size := 0, duration := 0,
                recording_type := rec_type.getD "automatic",
                state := st, format := format.getD "wav" }
        | none => Except.error "invalid state value"
      else Except.error "invalid recording_type value"
    else Except.error "invalid format value"
  else Except.error "Call not found"

/-- VoipController.upload_recording (voip_controller.py lines 225-266): a
missing recording is a 404 response and a missing file a 400 response;
otherwise the recording is written with recording_file = the base64-encoded
file content, the uploaded filename, file_size = len(file_content) — the
length of the base64-encoded content, as in the source — and state=completed.
The duration field is not part of the write. -/
def upload_recording (recording : Option VoipRecording)
    (file : Option (List Nat × String)) : Except String VoipRecording :=
  match recording with
  | none => Except.error "Recording not found"
  | some r =>
      match file with
      | none => Except.error "No file provided"
      | some (data, filename) =>
          Except.ok
            { r with
              recording_file := some (b64encode data),
              recording_filename := some filename,
              file_size := (b64encode data).length,
              state := RecState.completed }

/-- The decimal digit value of a character, if any. -/
def char_digit (c : Char) : Option Nat :=
  if 48 ≤ c.toNat ∧ c.toNat ≤ 57 then some (c.toNat - 48) else none

/-- Accumulate a decimal digit string into a number; any non-digit fails. -/
def digits_to_nat (acc : Nat) : List Char → Option Nat
  | [] => some acc
  | c :: rest =>
      match char_digit c with
      | none => none
      | some d => digits_to_nat (acc * 10 + d) rest

/-- Python int() on a string, in the cases the controller can meet: an
optional minus sign followed by at least one decimal digit; anything else
(for example a fractional value such as 12.5) raises ValueError. -/
def py_int? (s : String) : Option Int :=
  match s.data with
  | [] => none
  | c :: rest =>
      if c = '-' then
        match rest with
        | [] => none
        | d :: ds => (digits_to_nat 0 (d :: ds)).map (fun n => -(n : Int))
      else (digits_to_nat 0 (c :: rest)).map (fun n => (n : Int))

/-- int(request.httprequest.form.get('duration', 0)) (voip_controller.py line
349): an absent form value defaults to the integer 0; a present value is
parsed with int(). -/
def parse_duration (duration_form : Option String) : Option Int :=
  match duration_form with
  | none => some 0
  | some s => py_int? s

/-- VoipController.save_recording (voip_controller.py lines 335-430): the
form duration string is parsed with int() — failure raises and becomes the
error response; a missing recording file or an unknown call is an error
response; otherwise a new voip.recording is created with state=completed, the
client-declared integer duration, recording_file = base64(file bytes), a
server-generated filename call_recording_CALLID_UNIXTIME.webm, and
file_size = len(file_data), the raw byte count.  recording_type and format are
not in the create values and take their defaults (automatic, wav). -/
def save_recording (call_exists : Bool) (call_id : Nat) (unix_time : Nat)
    (duration_form : Option String) (recording_file : Option (List Nat)) :
    Except String VoipRecording :=
  match parse_duration duration_form with
  | none => Except.error "invalid duration"
  | some dur =>
      match recording_file with
      | none => Except.error "No recording file provided"
      | some data =>
          if call_exists then
            Except.ok
              { rname := "Call Recording - " ++ toString call_id,
                call_ref := call_id,
                recording_file := some (b64encode data),
                recording_filename :=
                  some ("call_recording_" ++ toString call_id ++ "_"
                        ++ toString unix_time ++ ".webm"),
                file_size := data.length,
                duration := dur,
                recording_type := "automatic",
                state := RecState.completed,
                format := "wav" }
          else Except.error ("Call " ++ toString call_id ++ " not found")

/-- A voip.server record (voip_server.py), the fields read by
get_voip_config. -/
structure VoipServer where
  host : String
  websocket_url : String
  port : Int
  use_tls : Bool
  realm : Option String
  stun_server : Option String
  turn_server : Option String
  turn_username : Option String
  turn_password : Option String
deriving DecidableEq

/-- A voip.user record (voip_user.py), the fields read by get_voip_config;
user_name is the name of the owning res.users record. -/
structure VoipUser where
  user_name : String
  server : VoipServer
  sip_username : String
  sip_password : String
  display_name : Option String
  active : Bool
  auto_answer : Bool
  ring_tone : String
  enable_recording : Bool
  auto_start_recording : Bool
  can_control_recording : Bool
  recording_quality : String
  recording_format : String
deriving DecidableEq

/-- The server half of the configuration dict built by
VoipUser.get_voip_config (voip_user.py lines 203-213). -/
structure ServerConfig where
  host : String
  websocket_url : String
  port : Int
  realm : String
  use_tls : Bool
  stun_server : Option String
  turn_server : Option String
  turn_username : Option String
  turn_password : Option String
deriving DecidableEq

/-- The user half of the configuration dict built by VoipUser.get_voip_config
(voip_user.py lines 214-225). -/
structure UserConfig where
  username : String
  password : String
  display_name : String
  auto_answer : Bool
  ring_tone : String
  enable_recording : Bool
  auto_start_recording : Bool
  can_control_recording : Bool
  recording_quality : String
  recording_format : String
deriving DecidableEq

/-- Python `a or b` on a nullable text field: an absent or empty value falls
back to the default. -/
def orFallback (v : Option String) (d : String) : String :=
  match v with
  | none => d
  | some s => if s = "" then d else s

/-- VoipUser.get_voip_config (voip_user.py lines 200-226): the configuration
dict, with realm = server.realm or server.host and display_name =
user.display_name or the owning Odoo user's name. -/
def get_voip_config (u : VoipUser) : ServerConfig × UserConfig :=
  ({ host := u.server.host,
     websocket_url := u.server.websocket_url,
     port := u.server.port,
     realm := orFallback u.server.realm u.server.host,
     use_tls := u.server.use_tls,
     stun_server := u.server.stun_server,
     turn_server := u.server.turn_server,
     turn_username := u.server.turn_username,
     turn_password := u.server.turn_password },
   { username := u.sip_username,
     password := u.sip_password,
     display_name := orFallback u.display_name u.user_name,
     auto_answer := u.auto_answer,
     ring_tone := u.ring_tone,
     enable_recording := u.enable_recording,
     auto_start_recording := u.auto_start_recording,
     can_control_recording := u.can_control_recording,
     recording_quality := u.recording_quality,
     recording_format := u.recording_format })

/-- A terminal call whose end precedes its answer (timestamps as written by
the update endpoint, which performs no ordering check). -/
def c1_cex : VoipCall :=
  { direction := Direction.inbound, state := CallState.completed,
    from_number := "100", to_number := "200", start_time := 0,
    answer_time := some 10, end_time := some 5,
    hangup_reason := some "normal", sip_call_id := none }

/-- A completed call with well-ordered timestamps. -/
def c1w : VoipCall :=
  { direction := Direction.outbound, state := CallState.completed,
    from_number := "1001", to_number := "5551234567", start_time := 1,
    answer_time := some 3, end_time := some 10,
    hangup_reason := some "normal", sip_call_id := none }

/-- A call already in the terminal state completed. -/
def c2_cex : VoipCall :=
  { direction := Direction.outbound, state := CallState.completed,
    from_number := "1001", to_number := "2002", start_time := 5,
    answer_time := some 10, end_time := some 20,
    hangup_reason := some "normal", sip_call_id := none }

/-- A freshly created ringing call. -/
def c3w : VoipCall :=
  { direction := Direction.inbound, state := CallState.ringing,
    from_number := "100", to_number := "200", start_time := 0,
    answer_time := none, end_time := none,
    hangup_reason := none, sip_call_id := none }

/-- A ringing call with start_time 100 and no answer_time. -/
def c4_call : VoipCall :=
  { direction := Direction.inbound, state := CallState.ringing,
    from_number := "100", to_number := "200", start_time := 100,
    answer_time := none, end_time := none,
    hangup_reason := none, sip_call_id := none }

/-- An in_progress call answered at 170. -/
def c4_call2 : VoipCall :=
  { direction := Direction.inbound, state := CallState.in_progress,
    from_number := "100", to_number := "200", start_time := 100,
    answer_time := some 170, end_time := none,
    hangup_reason := none, sip_call_id := none }

/-- The call produced by create_call 0 inbound 100 200. -/
def c5_base : VoipCall :=
  { direction := Direction.inbound, state := CallState.ringing,
    from_number := "100", to_number := "200", start_time := 0,
    answer_time := none, end_time := none,
    hangup_reason := none, sip_call_id := none }

/-- c5_base after action_end_call at 20 with reason no-answer: a missed call
with no answer_time. -/
def c5_cex : VoipCall :=
  { direction := Direction.inbound, state := CallState.missed,
    from_number := "100", to_number := "200", start_time := 0,
    answer_time := none, end_time := some 20,
    hangup_reason := some "no-answer", sip_call_id := none }

/-- A contact whose phone merely contains the normalized query. -/
def c7_partner : Partner :=
  { pid := 1, pname := "Alice", phone := some "91234",
    mobile := none, email := none }

/-- The contact of the spec example, with phone 5551234567. -/
def c7_example : Partner :=
  { pid := 2, pname := "Bob", phone := some "5551234567",
    mobile := none, email := none }

/-- A recording still in the recording state with a nonzero prior duration. -/
def c8_rec : VoipRecording :=
  { rname := "R", call_ref := 1, recording_file := none,
    recording_filename := none, file_size := 0, duration := 7,
    recording_type := "automatic", state := RecState.recording,
    format := "wav" }

/-- The record written by upload_recording on c8_rec with a 4-byte payload. -/
def c8_result : VoipRecording :=
  { c8_rec with
    recording_file := some (b64encode [1, 2, 3, 4]),
    recording_filename := some "y.webm",
    file_size := (b64encode [1, 2, 3, 4]).length,
    state := RecState.completed }

/-- The record created by save_recording for call 9 at unix time 1000 with a
4-byte payload and a declared duration of 12. -/
def c8_save_result : VoipRecording :=
  { rname := "Call Recording - 9", call_ref := 9,
    recording_file := some (b64encode [1, 2, 3, 4]),
    recording_filename := some "call_recording_9_1000.webm",
    file_size := 4, duration := 12,
    recording_type := "automatic", state := RecState.completed,
    format := "wav" }

/-- A server configuration without a realm. -/
def c10_server : VoipServer :=
  { host := "pbx.example.com",
    websocket_url := "wss://pbx.example.com:8089/ws",
    port := 5060, use_tls := true, realm := none,
    stun_server := none, turn_server := none,
    turn_username := none, turn_password := none }

/-- An active VoIP user on c10_server with a display name set. -/
def c10_user : VoipUser :=
  { user_name := "Alice", server := c10_server,
    sip_username := "1001", sip_password := "pw",
    display_name := some "Alice A", active := true,
    auto_answer := false, ring_tone := "default",
    enable_recording := true, auto_start_recording := true,
    can_control_recording := false, recording_quality := "medium",
    recording_format := "webm" }

/-- Claim C1, counterexample: on a call answered at 10 and ended at 5 the
computed duration is -5, which is negative and differs from
max(0, end_time - answer_time) = 0; the code does not clamp at zero. -/
theorem C1_counterexample :
    compute_duration c1_cex = -5
    ∧ compute_duration c1_cex ≠ max 0 ((5 : Int) - 10)
    ∧ compute_duration c1_cex < 0 := by
  refine ⟨rfl, ?_, ?_⟩ <;> decide

/-- Claim C1 (amended): for every call session, the derived duration equals
end_time - answer_time in seconds when both are set and 0 otherwise, and it is
negative exactly when end_time precedes answer_time. -/
theorem C1_duration (c : VoipCall) :
    (∀ a e : Int, c.answer_time = some a → c.end_time = some e →
        compute_duration c = e - a ∧ (compute_duration c < 0 ↔ e < a))
    ∧ ((c.answer_time = none ∨ c.end_time = none) → compute_duration c = 0) := by
  constructor
  · intro a e ha he
    unfold compute_duration
    rw [ha, he]
    refine ⟨rfl, ?_⟩
    show e - a < 0 ↔ e < a
    omega
  · intro h
    unfold compute_duration
    rcases h with h | h
    · rw [h]
    · rw [h]
      cases c.answer_time <;> rfl

/-- Claim C1, witness: the amended duration theorem at a call answered at 3
and ended at 10. -/
theorem C1_duration_witness :
    compute_duration c1w = 7 ∧ (compute_duration c1w < 0 ↔ (10 : Int) < 3) :=
  (C1_duration c1w).1 3 10 rfl rfl

/-- Claim C2, counterexample: on a call already completed (ended at 20),
action_end_call at 99 overwrites end_time and hangup_reason with no rejection,
and the update endpoint even rewrites the terminal state itself, ending the
call a second time — neither an InvalidTransition error nor a no-op. -/
theorem C2_counterexample :
    (action_end_call 99 "again" c2_cex).end_time = some 99
    ∧ (action_end_call 99 "again" c2_cex).hangup_reason = some "again"
    ∧ (action_end_call 99 "again" c2_cex).state = CallState.completed
    ∧ (action_end_call 99 "again" c2_cex).end_time ≠ c2_cex.end_time
    ∧ update_call 99 (some c2_cex) CallState.missed none none none
        = Except.ok { c2_cex with
            state := CallState.missed,
            end_time := some 99,
            hangup_reason := some "normal" } := by
  refine ⟨rfl, rfl, rfl, ?_, rfl⟩
  decide

/-- Claim C2 (amended): a state-update attempt on a call already in a terminal
state is not rejected: action_end_call leaves the state unchanged but
overwrites end_time and hangup_reason, and the update endpoint succeeds on any
existing call whatever its current state. -/
theorem C2_terminal_update (c : VoipCall) (now : Int) (reason : String)
    (h : c.state ∈ terminal_write_states) :
    action_end_call now reason c
      = { c with end_time := some now, hangup_reason := some reason }
    ∧ ∀ (s : CallState) (ans et : Option Int) (hr : Option String),
        ∃ c2, update_call now (some c) s ans et hr = Except.ok c2 := by
  constructor
  · have h1 : ¬ c.state = CallState.ringing := by
      intro hc
      rw [hc] at h
      exact absurd h (by decide)
    have h2 : ¬ c.state = CallState.in_progress := by
      intro hc
      rw [hc] at h
      exact absurd h (by decide)
    unfold action_end_call
    rw [if_neg h1, if_neg h2]
  · intro s ans et hr
    exact ⟨_, rfl⟩

/-- Claim C2, witness: the terminal-update theorem at the completed call
c2_cex with a second termination at 77. -/
theorem C2_terminal_update_witness :
    action_end_call 77 "later" c2_cex
      = { c2_cex with end_time := some 77, hangup_reason := some "later" } :=
  (C2_terminal_update c2_cex 77 "later" (by decide)).1

/-- Claim C3: action_end_call from ringing yields missed (never completed)
and from in_progress yields completed; in both cases end_time is set to now
and hangup_reason to the supplied reason. -/
theorem C3_terminate (c : VoipCall) (now : Int) (reason : String) :
    (c.state = CallState.ringing →
        (action_end_call now reason c).state = CallState.missed
        ∧ (action_end_call now reason c).state ≠ CallState.completed
        ∧ (action_end_call now reason c).end_time = some now
        ∧ (action_end_call now reason c).hangup_reason = some reason)
    ∧ (c.state = CallState.in_progress →
        (action_end_call now reason c).state = CallState.completed
        ∧ (action_end_call now reason c).end_time = some now
        ∧ (action_end_call now reason c).hangup_reason = some reason) := by
  constructor
  · intro h
    unfold action_end_call
    rw [if_pos h]
    refine ⟨rfl, ?_, rfl, rfl⟩
    show ¬ CallState.missed = CallState.completed
    decide
  · intro h
    have h1 : ¬ c.state = CallState.ringing := by
      rw [h]
      decide
    unfold action_end_call
    rw [if_neg h1, if_pos h]
    exact ⟨rfl, rfl, rfl⟩

/-- Claim C3, witness: terminating the ringing call c3w at 50 with reason
no-answer yields a missed (not completed) call ended at 50. -/
theorem C3_terminate_witness :
    (action_end_call 50 "no-answer" c3w).state = CallState.missed
    ∧ (action_end_call 50 "no-answer" c3w).state ≠ CallState.completed
    ∧ (action_end_call 50 "no-answer" c3w).end_time = some 50
    ∧ (action_end_call 50 "no-answer" c3w).hangup_reason = some "no-answer" :=
  (C3_terminate c3w 50 "no-answer").1 rfl

/-- Claim C4, code-bug evidence: the update endpoint accepts and writes an
answer_time of 50 on a call whose start_time is 100, and an end_time of 150 on
a call answered at 170, returning success both times — there is no
ValidationError and no monotonicity check before the mutation. -/
theorem C4_no_monotonicity_check :
    update_call 200 (some c4_call) CallState.in_progress (some 50) none none
      = Except.ok { c4_call with
          state := CallState.in_progress,
          answer_time := some 50 }
    ∧ (50 : Int) < c4_call.start_time
    ∧ update_call 200 (some c4_call2) CallState.completed none (some 150)
        (some "normal")
      = Except.ok { c4_call2 with
          state := CallState.completed,
          end_time := some 150,
          hangup_reason := some "normal" }
    ∧ c4_call2.answer_time = some 170
    ∧ (150 : Int) < 170 := by
  refine ⟨rfl, by decide, rfl, rfl, by decide⟩

/-- Claim C5, counterexample: a created call terminated from ringing is missed
with answer_time unset; a subsequent update to in_progress assigns answer_time
through a missed-to-in_progress transition, so the assignment is not
restricted to the ringing-to-in_progress transition. -/
theorem C5_counterexample :
    create_call 0 (some "inbound") (some "100") (some "200") none
      = Except.ok c5_base
    ∧ action_end_call 20 "no-answer" c5_base = c5_cex
    ∧ c5_cex.state = CallState.missed
    ∧ c5_cex.answer_time = none
    ∧ update_call 30 (some c5_cex) CallState.in_progress (some 25) none none
        = Except.ok { c5_cex with
            state := CallState.in_progress,
            answer_time := some 25 } :=
  ⟨rfl, rfl, rfl, rfl, rfl⟩

/-- Claim C5 (amended): answer_time is assigned only by operations that move
the call to in_progress — action_start_call assigns it when the state is
ringing, and the update endpoint assigns it exactly when the requested state
is in_progress and answer_time is still unset, regardless of the previous
state; no other operation modifies answer_time. -/
theorem C5_answer_time (c : VoipCall) (now : Int) (reason : String)
    (s : CallState) (ans et : Option Int) (hr : Option String) :
    (action_end_call now reason c).answer_time = c.answer_time
    ∧ (action_mark_as_missed now c).answer_time = c.answer_time
    ∧ (¬ c.state = CallState.ringing → action_start_call now c = c)
    ∧ (c.state = CallState.ringing →
        (action_start_call now c).answer_time = some now)
    ∧ ∀ c2, update_call now (some c) s ans et hr = Except.ok c2 →
        c2.answer_time =
          if s = CallState.in_progress ∧ c.answer_time = none then
            some (ans.getD now)
          else c.answer_time := by
  refine ⟨?_, rfl, ?_, ?_, ?_⟩
  · unfold action_end_call
    split_ifs <;> rfl
  · intro h
    unfold action_start_call
    rw [if_neg h]
  · intro h
    unfold action_start_call
    rw [if_pos h]
  · intro c2 h
    unfold update_call at h
    injection h with h2
    rw [← h2]

/-- Claim C5, witness: the answer_time characterization at the ringing call
c5_base answered at 15. -/
theorem C5_answer_time_witness :
    (action_start_call 15 c5_base).answer_time = some 15 :=
  (C5_answer_time c5_base 15 "normal" CallState.ringing none none
    none).2.2.2.1 rfl

/-- Claim C6: every create with both numbers present and non-empty and a valid
direction succeeds, and the resulting call has state ringing, start_time now,
and unset answer_time and end_time. -/
theorem C6_create (now : Int) (d f t : String) (cid : Option String)
    (hd : d ∈ valid_directions) (hf : ¬ f = "") (ht : ¬ t = "") :
    (create_call now (some d) (some f) (some t) cid).isOk = true
    ∧ ∀ c, create_call now (some d) (some f) (some t) cid = Except.ok c →
        c.state = CallState.ringing ∧ c.start_time = now
        ∧ c.answer_time = none ∧ c.end_time = none
        ∧ c.from_number = f ∧ c.to_number = t := by
  simp only [valid_directions, List.mem_cons, List.not_mem_nil, or_false] at hd
  rcases hd with h | h <;> subst h <;>
    refine ⟨rfl, ?_⟩ <;> intro c h <;> injection h with h2 <;> rw [← h2] <;>
    exact ⟨rfl, rfl, rfl, rfl, rfl, rfl⟩

/-- Claim C6, witness: a concrete valid create succeeds. -/
theorem C6_create_witness :
    (create_call 5 (some "outbound") (some "1001") (some "5551234567")
      none).isOk = true :=
  (C6_create 5 "outbound" "1001" "5551234567" none (by decide) (by decide)
    (by decide)).1

/-- Claim C7, counterexample: for the query 1-23 (normalized 123) and a
directory whose only contact has phone 91234, the lookup the claim describes
(exact normalized phone, then exact normalized mobile, then raw phone) finds
nothing, but the code's single ilike search returns the contact, because the
matching is by case-insensitive substring, not exact equality. -/
theorem C7_counterexample :
    search_partner_spec [c7_partner] "1-23" = none
    ∧ search_partner [c7_partner] "1-23" = Except.ok (some c7_partner) :=
  ⟨rfl, rfl⟩

/-- Claim C7 (amended): contact lookup normalizes the query by stripping
space, hyphen and parenthesis characters, then returns the first directory
contact whose phone or mobile contains the normalized query as a
case-insensitive substring or whose phone contains the raw query — one
disjunctive substring search in directory order, not a three-stage exact-match
priority; no match yields an empty result rather than an error, and the query
(555) 123-4567 does match a contact with stored phone 5551234567. -/
theorem C7_lookup (dir : List Partner) (phone : String) (hp : ¬ phone = "") :
    (∀ p, search_partner dir phone = Except.ok (some p) →
        p ∈ dir ∧ partner_matches (clean_phone phone) phone p = true)
    ∧ ((∀ p ∈ dir, partner_matches (clean_phone phone) phone p = false) →
        search_partner dir phone = Except.ok none)
    ∧ search_partner [c7_example] "(555) 123-4567"
        = Except.ok (some c7_example) := by
  refine ⟨?_, ?_, rfl⟩
  · intro p h
    unfold search_partner at h
    rw [if_neg hp] at h
    injection h with h2
    exact ⟨List.mem_of_find?_eq_some h2, List.find?_some h2⟩
  · intro hall
    unfold search_partner
    rw [if_neg hp]
    have hnone : dir.find? (partner_matches (clean_phone phone) phone) = none :=
      List.find?_eq_none.mpr (fun p hmem => by rw [hall p hmem]; decide)
    rw [hnone]

/-- Claim C7, witness: the lookup theorem at the spec's own example. -/
theorem C7_lookup_witness :
    search_partner [c7_example] "(555) 123-4567"
      = Except.ok (some c7_example) :=
  (C7_lookup [c7_example] "(555) 123-4567" (by decide)).2.2

/-- The base64 encoding of n bytes has length 4 * ceil(n / 3). -/
theorem b64encode_length : ∀ bs : List Nat,
    (b64encode bs).length = 4 * ((bs.length + 2) / 3)
  | [] => rfl
  | [_] => by simp [b64encode]
  | [_, _] => by simp [b64encode]
  | _ :: _ :: _ :: rest => by
      simp only [b64encode, List.length_cons, b64encode_length rest]
      omega

/-- Claim C8, counterexample: completing an upload of the single byte 0 sets
file_size to 4 — the length of the base64-encoded content AA== — not to the
raw payload length 1, and the recording's duration stays at its prior value 7
rather than being set from any declared duration. -/
theorem C8_counterexample :
    upload_recording (some c8_rec) (some ([0], "x.webm"))
      = Except.ok { c8_rec with
          recording_file := some ['A', 'A', Char.ofNat 61, Char.ofNat 61],
          recording_filename := some "x.webm",
          file_size := 4,
          state := RecState.completed }
    ∧ ([0] : List Nat).length = 1
    ∧ ¬ (4 : Nat) = 1 := by
  refine ⟨rfl, rfl, by decide⟩

/-- Claim C8 (amended): upload_recording sets state completed, stores the
uploaded filename, sets file_size to the length of the base64-encoded payload,
4 * ceil(len(payload) / 3), and leaves duration untouched; the save_recording
path creates a completed recording with file_size equal to the raw byte count
and duration equal to the client-declared integer duration. -/
theorem C8_upload_complete (r : VoipRecording) (payload : List Nat)
    (filename : String) (cid ts : Nat) (ds : String) :
    (∀ r2, upload_recording (some r) (some (payload, filename)) = Except.ok r2 →
        r2.state = RecState.completed
        ∧ r2.recording_filename = some filename
        ∧ r2.file_size = 4 * ((payload.length + 2) / 3)
        ∧ r2.duration = r.duration)
    ∧ (∀ dv r2, py_int? ds = some dv →
        save_recording true cid ts (some ds) (some payload) = Except.ok r2 →
        r2.state = RecState.completed
        ∧ r2.file_size = payload.length
        ∧ r2.duration = dv) := by
  constructor
  · intro r2 h
    unfold upload_recording at h
    injection h with h2
    rw [← h2]
    exact ⟨rfl, rfl, b64encode_length payload, rfl⟩
  · intro dv r2 hds h
    have hp : parse_duration (some ds) = some dv := by
      simp only [parse_duration]
      exact hds
    unfold save_recording at h
    rw [hp] at h
    injection h with h2
    rw [← h2]
    exact ⟨rfl, rfl, rfl⟩

/-- Claim C8, witness: the upload theorem at a 4-byte payload (file_size 8,
not 4) and the save theorem at declared duration 12. -/
theorem C8_upload_complete_witness :
    (c8_result.state = RecState.completed
      ∧ c8_result.recording_filename = some "y.webm"
      ∧ c8_result.file_size = 8
      ∧ c8_result.duration = c8_rec.duration)
    ∧ (c8_save_result.state = RecState.completed
      ∧ c8_save_result.file_size = 4
      ∧ c8_save_result.duration = 12) :=
  ⟨(C8_upload_complete c8_rec [1, 2, 3, 4] "y.webm" 9 1000 "12").1
      c8_result rfl,
   (C8_upload_complete c8_rec [1, 2, 3, 4] "y.webm" 9 1000 "12").2 12
      c8_save_result (by decide) rfl⟩

/-- Claim C9, code-bug evidence: the voip.recording format Selection is
exactly wav, mp3, ogg — creating a recording with format webm is rejected,
and mp4 is likewise outside the range — although the module's own per-user
recording_format Selection offers webm as its recommended default and the
save_recording path stores .webm files, which then carry the default format
wav. -/
theorem C9_webm_rejected :
    create_recording true 1 "VOIP/0001" none none none (some "webm")
      = Except.error "invalid format value"
    ∧ ¬ "webm" ∈ recording_formats
    ∧ ¬ "mp4" ∈ recording_formats
    ∧ "webm" ∈ user_recording_formats
    ∧ save_recording true 5 1000 (some "12") (some [1, 2, 3])
        = Except.ok
            { rname := "Call Recording - 5", call_ref := 5,
              recording_file := some (b64encode [1, 2, 3]),
              recording_filename := some "call_recording_5_1000.webm",
              file_size := 3, duration := 12,
              recording_type := "automatic", state := RecState.completed,
              format := "wav" } := by
  refine ⟨rfl, by decide, by decide, by decide, rfl⟩

/-- Claim C10: for every active VoIP user configuration, get_voip_config
returns server.realm equal to the configured realm when one is set and to the
server host otherwise, and user.display_name equal to the configured display
name when one is set and to the owning Odoo user's name otherwise. -/
theorem C10_get_voip_config (u : VoipUser) (hactive : u.active = true) :
    ((∀ r, u.server.realm = some r → ¬ r = "" →
        (get_voip_config u).1.realm = r)
      ∧ ((u.server.realm = none ∨ u.server.realm = some "") →
        (get_voip_config u).1.realm = u.server.host))
    ∧ ((∀ d, u.display_name = some d → ¬ d = "" →
        (get_voip_config u).2.display_name = d)
      ∧ ((u.display_name = none ∨ u.display_name = some "") →
        (get_voip_config u).2.display_name = u.user_name)) := by
  refine ⟨⟨?_, ?_⟩, ?_, ?_⟩
  · intro r hr hne
    show orFallback u.server.realm u.server.host = r
    rw [hr]
    simp [orFallback, hne]
  · intro h
    show orFallback u.server.realm u.server.host = u.server.host
    rcases h with h | h <;> rw [h] <;> simp [orFallback]
  · intro d hd hne
    show orFallback u.display_name u.user_name = d
    rw [hd]
    simp [orFallback, hne]
  · intro h
    show orFallback u.display_name u.user_name = u.user_name
    rcases h with h | h <;> rw [h] <;> simp [orFallback]

/-- Claim C10, witness: the configuration theorem at c10_user, whose server
has no realm and whose display name is set. -/
theorem C10_get_voip_config_witness :
    (get_voip_config c10_user).1.realm = c10_server.host
    ∧ (get_voip_config c10_user).2.display_name = "Alice A" :=
  ⟨(C10_get_voip_config c10_user rfl).1.2 (Or.inl rfl),
   (C10_get_voip_config c10_user rfl).2.1 "Alice A" rfl (by decide)⟩

end Voip
